import Mathlib

/-!
Shallow embedding of the data-loading and time-partitioning core of the
GE-Analysis application (`app/data.py`): the loader `load_data` and the
partitioner `split_timeframes`, together with proofs of the documented
properties of the three date partitions (early / mid / recent).

Modelling conventions:
- a pandas DataFrame is a list of column labels plus a list of rows,
  each row a list of label-indexed cells (pandas rows are label-indexed);
- a datetime value is a natural number in the order-preserving
  `yyyymmdd` encoding (pandas Timestamps are totally ordered, and the
  comparisons in the source use only that order);
- the pandas missing marker (`NaN` / `NaT`) is the cell `Cell.na`; a
  comparison of `NaT` against a Timestamp evaluates to `False` in
  pandas, which the cell comparison functions below reproduce;
- the filesystem is abstracted to a boolean (`DATA_PATH.exists()`), the
  CSV reader output to a given raw DataFrame, and the pandas datetime
  parser to a function `String → Option Nat`.
-/

namespace GEAnalysis

/-- Cell of an in-memory table: the missing marker (pandas NaN / NaT), a
parsed datetime (order-preserving `yyyymmdd` natural), or a raw string
field as produced by the CSV reader. -/
inductive Cell where
  | na : Cell
  | date : Nat → Cell
  | str : String → Cell
deriving DecidableEq, Repr

/-- Row of a table: label-indexed cells. -/
abbrev Row := List (String × Cell)

/-- DataFrame: ordered column labels and ordered rows. -/
structure DataFrame where
  cols : List String
  rows : List Row
deriving DecidableEq, Repr

/-- Label of the date column. -/
def dateCol : String := "Date"

/-- Label of the legacy open-interest column dropped by the loader. -/
def openIntCol : String := "OpenInt"

/-- Order-preserving `yyyymmdd` encoding of a calendar date. -/
def ymd (y m d : Nat) : Nat := y * 10000 + m * 100 + d

/-- Timestamp 1962-01-02, start of the early period. -/
def early_start : Nat := ymd 1962 1 2

/-- Timestamp 1989-12-31, end of the early period. -/
def early_end : Nat := ymd 1989 12 31

/-- Timestamp 1990-01-01, start of the mid period. -/
def mid_start : Nat := ymd 1990 1 1

/-- Timestamp 2004-12-31, end of the mid period. -/
def mid_end : Nat := ymd 2004 12 31

/-- Timestamp 2005-01-01, start of the recent period. -/
def recent_start : Nat := ymd 2005 1 1

/-- Timestamp 2017-11-10, end of the recent period. -/
def recent_end : Nat := ymd 2017 11 10

/-- Comparison `cell >= t` as pandas evaluates it on a datetime column:
`NaT` (and any non-datetime cell) compares `False`. -/
def cellGe (c : Cell) (t : Nat) : Bool :=
  match c with
  | Cell.date d => decide (t ≤ d)
  | _ => false

/-- Comparison `cell <= t` as pandas evaluates it on a datetime column:
`NaT` (and any non-datetime cell) compares `False`. -/
def cellLe (c : Cell) (t : Nat) : Bool :=
  match c with
  | Cell.date d => decide (d ≤ t)
  | _ => false

/-- Cell stored under column label `name` in a row (missing marker when
the label is absent). -/
def colCell (r : Row) (name : String) : Cell :=
  (r.lookup name).getD Cell.na

/-- Boolean mask `(df["Date"] >= lo) & (df["Date"] <= hi)` evaluated at
one row, as in lines 57-59 of `app/data.py`. -/
def rowInRange (lo hi : Nat) (r : Row) : Bool :=
  cellGe (colCell r dateCol) lo && cellLe (colCell r dateCol) hi

/-- Model of `pd.to_datetime(value, errors="coerce")` on one cell, given
the underlying datetime parser `parse`: an unparseable string becomes the
missing marker instead of raising; an already-missing cell stays missing. -/
def coerceCell (parse : String → Option Nat) (c : Cell) : Cell :=
  match c with
  | Cell.str s =>
    match parse s with
    | some d => Cell.date d
    | none => Cell.na
  | c => c

/-- Assignment `df["Date"] = pd.to_datetime(df["Date"], errors="coerce")`
restricted to one row: the cell under the date label is coerced, every
other cell is untouched. -/
def parseDateRow (parse : String → Option Nat) (r : Row) : Row :=
  r.map (fun p => if p.1 = dateCol then (p.1, coerceCell parse p.2) else p)

/-- Date-parsing step of `load_data` (lines 26-27 of `app/data.py`):
applied only when the header contains a date column. -/
def parseDateColumn (parse : String → Option Nat) (df : DataFrame) : DataFrame :=
  if dateCol ∈ df.cols then
    { cols := df.cols, rows := df.rows.map (parseDateRow parse) }
  else df

/-- Model of `df.drop(columns=[name])`: the label is removed from the
header and the matching cells from every row. -/
def dropColumn (df : DataFrame) (name : String) : DataFrame :=
  { cols := df.cols.filter (fun c => c != name)
  , rows := df.rows.map (fun r => r.filter (fun p => p.1 != name)) }

/-- Guarded OpenInt-dropping step of `load_data` (lines 30-31 of
`app/data.py`): a no-op when the column is absent. -/
def dropOpenInt (df : DataFrame) : DataFrame :=
  if openIntCol ∈ df.cols then dropColumn df openIntCol else df

/-- Error message raised by `load_data` when the data file is missing. -/
def fileNotFoundMsg : String := "Data file not found"

/-- Model of `load_data` (lines 15-33 of `app/data.py`): `fileExists`
models `DATA_PATH.exists()`, `raw` the DataFrame produced by
`pd.read_csv(DATA_PATH)`, and `parse` the pandas datetime parser. -/
def load_data (fileExists : Bool) (parse : String → Option Nat)
    (raw : DataFrame) : Except String DataFrame :=
  if fileExists then
    Except.ok (dropOpenInt (parseDateColumn parse raw))
  else
    Except.error fileNotFoundMsg

/-- Result of `split_timeframes`: the four named tables. -/
structure Timeframes where
  master : DataFrame
  early : DataFrame
  mid : DataFrame
  recent : DataFrame
deriving DecidableEq, Repr

/-- Model of `split_timeframes` (lines 36-61 of `app/data.py`): when a
date column is present, filter the rows by the three closed intervals;
otherwise return the input and three copies of it. -/
def split_timeframes (df : DataFrame) : Timeframes :=
  if dateCol ∈ df.cols then
    { master := df
    , early := { cols := df.cols
               , rows := df.rows.filter (rowInRange early_start early_end) }
    , mid := { cols := df.cols
             , rows := df.rows.filter (rowInRange mid_start mid_end) }
    , recent := { cols := df.cols
                , rows := df.rows.filter (rowInRange recent_start recent_end) } }
  else
    { master := df, early := df, mid := df, recent := df }

/-! Helper lemmas shared by the claim theorems. -/

/-- Characterisation of the interval membership mask: it is satisfied
exactly by rows whose date cell is a parsed datetime inside the closed
interval; the missing marker and raw strings never satisfy it. -/
lemma rowInRange_iff {lo hi : Nat} {r : Row} :
    rowInRange lo hi r = true ↔
      ∃ d, colCell r dateCol = Cell.date d ∧ lo ≤ d ∧ d ≤ hi := by
  unfold rowInRange
  cases h : colCell r dateCol with
  | na => simp [cellGe, cellLe]
  | date d => simp [cellGe, cellLe]
  | str s => simp [cellGe, cellLe]

/-- Two interval masks whose intervals are separated can not both accept
the same row. -/
lemma rowInRange_disjoint {lo1 hi1 lo2 hi2 : Nat} (h : hi1 < lo2) (r : Row)
    (h1 : rowInRange lo1 hi1 r = true) (h2 : rowInRange lo2 hi2 r = true) :
    False := by
  obtain ⟨d1, hd1, _, hle1⟩ := rowInRange_iff.mp h1
  obtain ⟨d2, hd2, hge2, _⟩ := rowInRange_iff.mp h2
  rw [hd1] at hd2
  injection hd2 with he
  omega

/-- Unfolding of `split_timeframes` when the date column is present. -/
lemma split_date {df : DataFrame} (h : dateCol ∈ df.cols) :
    split_timeframes df =
      { master := df
      , early := { cols := df.cols
                 , rows := df.rows.filter (rowInRange early_start early_end) }
      , mid := { cols := df.cols
               , rows := df.rows.filter (rowInRange mid_start mid_end) }
      , recent := { cols := df.cols
                  , rows := df.rows.filter (rowInRange recent_start recent_end) } } := by
  unfold split_timeframes
  rw [if_pos h]

/-- Unfolding of `split_timeframes` when the date column is absent. -/
lemma split_noDate {df : DataFrame} (h : dateCol ∉ df.cols) :
    split_timeframes df = { master := df, early := df, mid := df, recent := df } := by
  unfold split_timeframes
  rw [if_neg h]

/-- C1: for every loaded table with a Date column, every row placed by the
partitioner in `early` has a Date d with 1962-01-02 ≤ d ≤ 1989-12-31, every
row in `mid` has 1990-01-01 ≤ d ≤ 2004-12-31, and every row in `recent` has
2005-01-01 ≤ d ≤ 2017-11-10. -/
theorem split_timeframes_interval_bounds (df : DataFrame) (h : dateCol ∈ df.cols) :
    (∀ r ∈ (split_timeframes df).early.rows,
      ∃ d, colCell r dateCol = Cell.date d ∧ early_start ≤ d ∧ d ≤ early_end)
    ∧ (∀ r ∈ (split_timeframes df).mid.rows,
      ∃ d, colCell r dateCol = Cell.date d ∧ mid_start ≤ d ∧ d ≤ mid_end)
    ∧ (∀ r ∈ (split_timeframes df).recent.rows,
      ∃ d, colCell r dateCol = Cell.date d ∧ recent_start ≤ d ∧ d ≤ recent_end) := by
  rw [split_date h]
  refine ⟨?_, ?_, ?_⟩ <;> intro r hr <;>
    exact rowInRange_iff.mp (List.mem_filter.mp hr).2

/-- C2: the three interval masks are pairwise disjoint (no row satisfies the
membership test of two different intervals), and each of early, mid, recent
contains only rows of master. -/
theorem split_timeframes_disjoint_subset (df : DataFrame) :
    (∀ r : Row, ¬(rowInRange early_start early_end r = true
        ∧ rowInRange mid_start mid_end r = true))
    ∧ (∀ r : Row, ¬(rowInRange early_start early_end r = true
        ∧ rowInRange recent_start recent_end r = true))
    ∧ (∀ r : Row, ¬(rowInRange mid_start mid_end r = true
        ∧ rowInRange recent_start recent_end r = true))
    ∧ (∀ r ∈ (split_timeframes df).early.rows, r ∈ (split_timeframes df).master.rows)
    ∧ (∀ r ∈ (split_timeframes df).mid.rows, r ∈ (split_timeframes df).master.rows)
    ∧ (∀ r ∈ (split_timeframes df).recent.rows, r ∈ (split_timeframes df).master.rows) := by
  refine ⟨fun r hp => rowInRange_disjoint (by decide) r hp.1 hp.2,
    fun r hp => rowInRange_disjoint (by decide) r hp.1 hp.2,
    fun r hp => rowInRange_disjoint (by decide) r hp.1 hp.2, ?_, ?_, ?_⟩ <;>
  · by_cases hd : dateCol ∈ df.cols
    · rw [split_date hd]
      intro r hr
      exact (List.mem_filter.mp hr).1
    · rw [split_noDate hd]
      intro r hr
      exact hr

/-- C5: for every input table lacking a Date column, the partitioner returns
master unmodified and early, mid, recent each content-equal to master. -/
theorem split_timeframes_no_date (df : DataFrame) (h : dateCol ∉ df.cols) :
    (split_timeframes df).master = df ∧ (split_timeframes df).early = df
    ∧ (split_timeframes df).mid = df ∧ (split_timeframes df).recent = df := by
  rw [split_noDate h]
  exact ⟨rfl, rfl, rfl, rfl⟩

/-- C9: for every input table, the `master` table returned by the
partitioner is the input table unchanged. -/
theorem split_timeframes_master_id (df : DataFrame) :
    (split_timeframes df).master = df := by
  unfold split_timeframes
  split <;> rfl

/-- C10: a row whose Date cell is the missing marker stays in master and is
excluded from all three of early, mid and recent. -/
theorem split_timeframes_na_excluded (df : DataFrame) (h : dateCol ∈ df.cols) (r : Row)
    (hr : r ∈ df.rows) (hna : colCell r dateCol = Cell.na) :
    r ∈ (split_timeframes df).master.rows
    ∧ r ∉ (split_timeframes df).early.rows
    ∧ r ∉ (split_timeframes df).mid.rows
    ∧ r ∉ (split_timeframes df).recent.rows := by
  rw [split_date h]
  refine ⟨hr, ?_, ?_, ?_⟩ <;> intro hmem <;>
  · obtain ⟨d, hd, _, _⟩ := rowInRange_iff.mp (List.mem_filter.mp hmem).2
    rw [hna] at hd
    exact Cell.noConfusion hd

/-- C4: interval membership is inclusive on both ends: a row dated exactly
1989-12-31 is classified into `early` and not `mid`, and a row dated exactly
1990-01-01 is classified into `mid` and not `early`. -/
theorem split_timeframes_boundary (df : DataFrame) (h : dateCol ∈ df.cols) (r : Row)
    (hr : r ∈ df.rows) :
    (colCell r dateCol = Cell.date (ymd 1989 12 31) →
      r ∈ (split_timeframes df).early.rows ∧ r ∉ (split_timeframes df).mid.rows)
    ∧ (colCell r dateCol = Cell.date (ymd 1990 1 1) →
      r ∈ (split_timeframes df).mid.rows ∧ r ∉ (split_timeframes df).early.rows) := by
  rw [split_date h]
  constructor
  · intro hd
    constructor
    · exact List.mem_filter.mpr
        ⟨hr, rowInRange_iff.mpr ⟨ymd 1989 12 31, hd, by decide, by decide⟩⟩
    · intro hmem
      obtain ⟨d, hd2, hge, _⟩ := rowInRange_iff.mp (List.mem_filter.mp hmem).2
      rw [hd] at hd2
      injection hd2 with he
      subst he
      revert hge
      decide
  · intro hd
    constructor
    · exact List.mem_filter.mpr
        ⟨hr, rowInRange_iff.mpr ⟨ymd 1990 1 1, hd, by decide, by decide⟩⟩
    · intro hmem
      obtain ⟨d, hd2, _, hle⟩ := rowInRange_iff.mp (List.mem_filter.mp hmem).2
      rw [hd] at hd2
      injection hd2 with he
      subst he
      revert hle
      decide

/-- Filtering by the disjunction of two disjoint boolean predicates keeps
exactly as many elements as the two separate filters together. -/
lemma length_filter_or {α : Type} (p q : α → Bool)
    (h : ∀ x, p x = true → q x = true → False) (l : List α) :
    (l.filter (fun x => p x || q x)).length
      = (l.filter p).length + (l.filter q).length := by
  induction l with
  | nil => rfl
  | cons a t ih =>
    cases hp : p a <;> cases hq : q a
    · simp only [List.filter_cons, hp, hq, Bool.or_self, Bool.false_eq_true, if_false]
      exact ih
    · simp only [List.filter_cons, hp, hq, Bool.false_or, Bool.false_eq_true, if_false,
        if_true, List.length_cons]
      omega
    · simp only [List.filter_cons, hp, hq, Bool.or_false, Bool.false_eq_true, if_false,
        if_true, List.length_cons]
      omega
    · exact (h a hp hq).elim

/-- Filtering keeps every element exactly when the predicate holds on all
of them. -/
lemma length_filter_eq_length_iff {α : Type} (p : α → Bool) (l : List α) :
    (l.filter p).length = l.length ↔ ∀ x ∈ l, p x = true := by
  induction l with
  | nil => simp
  | cons a t ih =>
    cases hp : p a
    · have hle := List.length_filter_le p t
      simp [List.filter_cons, hp, List.forall_mem_cons]
      omega
    · simp [List.filter_cons, hp, ih, List.forall_mem_cons]

/-- Test used by the row-count invariant: the row falls in at least one of
the three closed intervals. -/
def inAnyTimeframe (r : Row) : Bool :=
  rowInRange early_start early_end r || rowInRange mid_start mid_end r
    || rowInRange recent_start recent_end r

/-- C3: for every input table with a Date column, the partition row counts
satisfy len early + len mid + len recent ≤ len master, with equality exactly
when every row falls in one of the three closed intervals. -/
theorem split_timeframes_count (df : DataFrame) (h : dateCol ∈ df.cols) :
    ((split_timeframes df).early.rows.length + (split_timeframes df).mid.rows.length
        + (split_timeframes df).recent.rows.length
      ≤ (split_timeframes df).master.rows.length)
    ∧ ((split_timeframes df).early.rows.length + (split_timeframes df).mid.rows.length
        + (split_timeframes df).recent.rows.length
          = (split_timeframes df).master.rows.length
      ↔ ∀ r ∈ df.rows, inAnyTimeframe r = true) := by
  rw [split_date h]
  have hEM : ∀ r : Row, rowInRange early_start early_end r = true →
      rowInRange mid_start mid_end r = true → False :=
    fun r => rowInRange_disjoint (by decide) r
  have hER : ∀ r : Row, rowInRange early_start early_end r = true →
      rowInRange recent_start recent_end r = true → False :=
    fun r => rowInRange_disjoint (by decide) r
  have hMR : ∀ r : Row, rowInRange mid_start mid_end r = true →
      rowInRange recent_start recent_end r = true → False :=
    fun r => rowInRange_disjoint (by decide) r
  have hsum : (df.rows.filter (fun r =>
      rowInRange early_start early_end r || rowInRange mid_start mid_end r
        || rowInRange recent_start recent_end r)).length
      = (df.rows.filter (rowInRange early_start early_end)).length
        + (df.rows.filter (rowInRange mid_start mid_end)).length
        + (df.rows.filter (rowInRange recent_start recent_end)).length := by
    have h1 : (df.rows.filter (fun r =>
        rowInRange early_start early_end r || rowInRange mid_start mid_end r)).length
        = (df.rows.filter (rowInRange early_start early_end)).length
          + (df.rows.filter (rowInRange mid_start mid_end)).length :=
      length_filter_or _ _ hEM df.rows
    have h2 : (df.rows.filter (fun r =>
        (rowInRange early_start early_end r || rowInRange mid_start mid_end r)
          || rowInRange recent_start recent_end r)).length
        = (df.rows.filter (fun r =>
            rowInRange early_start early_end r || rowInRange mid_start mid_end r)).length
          + (df.rows.filter (rowInRange recent_start recent_end)).length := by
      refine length_filter_or _ _ ?_ df.rows
      intro r hor hrec
      rcases Bool.or_eq_true_iff.mp hor with he | hm
      · exact hER r he hrec
      · exact hMR r hm hrec
    rw [h2, h1]
  constructor
  · rw [← hsum]
    exact List.length_filter_le _ _
  · rw [← hsum]
    simp only [inAnyTimeframe]
    exact length_filter_eq_length_iff _ df.rows

/-- Dropping the OpenInt column removes its label from the header,
whether or not it was present. -/
lemma dropOpenInt_cols (df : DataFrame) : openIntCol ∉ (dropOpenInt df).cols := by
  unfold dropOpenInt
  by_cases h : openIntCol ∈ df.cols
  · rw [if_pos h]
    intro hmem
    have hpred := (List.mem_filter.mp hmem).2
    simp at hpred
  · rw [if_neg h]
    exact h

/-- The partitioner never changes the header of any of the four tables. -/
lemma split_timeframes_cols (df : DataFrame) :
    (split_timeframes df).master.cols = df.cols
    ∧ (split_timeframes df).early.cols = df.cols
    ∧ (split_timeframes df).mid.cols = df.cols
    ∧ (split_timeframes df).recent.cols = df.cols := by
  unfold split_timeframes
  split <;> exact ⟨rfl, rfl, rfl, rfl⟩

/-- C6: the column OpenInt never appears in any of the four returned
tables, even when the source file contains an OpenInt column; when no
OpenInt column is present the drop step of the loader is a no-op. -/
theorem load_data_drops_openInt (parse : String → Option Nat) (raw t : DataFrame)
    (h : load_data true parse raw = Except.ok t) :
    (openIntCol ∉ t.cols
      ∧ openIntCol ∉ (split_timeframes t).master.cols
      ∧ openIntCol ∉ (split_timeframes t).early.cols
      ∧ openIntCol ∉ (split_timeframes t).mid.cols
      ∧ openIntCol ∉ (split_timeframes t).recent.cols)
    ∧ (∀ df : DataFrame, openIntCol ∉ df.cols → dropOpenInt df = df) := by
  have ht : t = dropOpenInt (parseDateColumn parse raw) := by
    unfold load_data at h
    simp only [if_true, Except.ok.injEq] at h
    exact h.symm
  subst ht
  obtain ⟨hm, he, hmid, hr⟩ := split_timeframes_cols (dropOpenInt (parseDateColumn parse raw))
  refine ⟨⟨dropOpenInt_cols _, ?_, ?_, ?_, ?_⟩, ?_⟩
  · rw [hm]; exact dropOpenInt_cols _
  · rw [he]; exact dropOpenInt_cols _
  · rw [hmid]; exact dropOpenInt_cols _
  · rw [hr]; exact dropOpenInt_cols _
  · intro df hdf
    unfold dropOpenInt
    rw [if_neg hdf]

/-- Looking up the date label commutes with the per-row date coercion:
the coerced row holds exactly the coerced cell. -/
lemma lookup_parseDateRow (parse : String → Option Nat) (r : Row) :
    (parseDateRow parse r).lookup dateCol = (r.lookup dateCol).map (coerceCell parse) := by
  induction r with
  | nil => rfl
  | cons p t ih =>
    obtain ⟨k, v⟩ := p
    by_cases hk : k = dateCol
    · subst hk
      simp [parseDateRow, List.lookup, ih]
    · have hbeq : (dateCol == k) = false := by
        simp only [beq_eq_false_iff_ne, ne_eq]
        exact fun he => hk he.symm
      simp only [parseDateRow, List.map_cons]
      rw [if_neg hk]
      simp only [List.lookup, hbeq]
      exact ih

/-- Coercion at the level of `colCell`: the date cell of a coerced row is
the coercion of the original date cell. -/
lemma colCell_parseDateRow (parse : String → Option Nat) (r : Row) :
    colCell (parseDateRow parse r) dateCol = coerceCell parse (colCell r dateCol) := by
  unfold colCell
  rw [lookup_parseDateRow]
  cases r.lookup dateCol with
  | none => rfl
  | some c => rfl

/-- C7: when the header contains a Date column the loader coerces each
Date cell through the best-effort parser; an unparseable value becomes
the missing marker instead of raising, and loading always succeeds. -/
theorem load_data_coerce_dates (parse : String → Option Nat) (raw : DataFrame)
    (h : dateCol ∈ raw.cols) :
    (∃ t, load_data true parse raw = Except.ok t)
    ∧ (parseDateColumn parse raw).rows = raw.rows.map (parseDateRow parse)
    ∧ (∀ r : Row, colCell (parseDateRow parse r) dateCol
        = coerceCell parse (colCell r dateCol))
    ∧ (∀ s, parse s = none → coerceCell parse (Cell.str s) = Cell.na) := by
  refine ⟨⟨dropOpenInt (parseDateColumn parse raw), rfl⟩, ?_, colCell_parseDateRow parse, ?_⟩
  · unfold parseDateColumn
    rw [if_pos h]
  · intro s hs
    simp [coerceCell, hs]

/-- C8: when the data file path does not exist the loader fails with the
file-not-found error and produces no table; when it exists, the existence
check raises nothing and the loader returns a table. -/
theorem load_data_missing_file (parse : String → Option Nat) (raw : DataFrame) :
    load_data false parse raw = Except.error fileNotFoundMsg
    ∧ (∀ t, load_data false parse raw ≠ Except.ok t)
    ∧ (∃ t, load_data true parse raw = Except.ok t) := by
  refine ⟨rfl, ?_, ⟨dropOpenInt (parseDateColumn parse raw), rfl⟩⟩
  intro t ht
  exact Except.noConfusion ht

/-! Concrete sample data used to instantiate the theorems. -/

/-- Sample row dated 1980-05-05, inside the early period. -/
def rowEarly : Row := [(dateCol, Cell.date (ymd 1980 5 5))]

/-- Sample row dated exactly 1989-12-31, the early/mid boundary. -/
def rowBoundaryEarly : Row := [(dateCol, Cell.date (ymd 1989 12 31))]

/-- Sample row dated exactly 1990-01-01, the first mid day. -/
def rowBoundaryMid : Row := [(dateCol, Cell.date (ymd 1990 1 1))]

/-- Sample row whose date is the missing marker. -/
def rowNa : Row := [(dateCol, Cell.na)]

/-- Sample table with a date column and four rows. -/
def sampleDF : DataFrame :=
  { cols := [dateCol], rows := [rowEarly, rowBoundaryEarly, rowBoundaryMid, rowNa] }

/-- Label used by the sample table without a date column. -/
def closeCol : String := "Close"

/-- Sample table lacking a date column. -/
def sampleNoDate : DataFrame := { cols := [closeCol], rows := [[(closeCol, Cell.na)]] }

/-- Sample malformed date string. -/
def badDateStr : String := "not-a-date"

/-- Sample raw table, as read from the CSV, with a date column holding a
malformed value and an OpenInt column. -/
def sampleRaw : DataFrame :=
  { cols := [dateCol, openIntCol]
  , rows := [[(dateCol, Cell.str badDateStr), (openIntCol, Cell.na)]] }

/-- Sample datetime parser that fails on every string. -/
def failParse : String → Option Nat := fun _ => none

/-- Witness for C1 at the sample table. -/
theorem split_timeframes_interval_bounds_witness :
    ∃ d, colCell rowEarly dateCol = Cell.date d ∧ early_start ≤ d ∧ d ≤ early_end :=
  (split_timeframes_interval_bounds sampleDF (by decide)).1 rowEarly (by decide)

/-- Witness for C2 at the sample table. -/
theorem split_timeframes_disjoint_subset_witness :
    rowEarly ∈ (split_timeframes sampleDF).master.rows :=
  (split_timeframes_disjoint_subset sampleDF).2.2.2.1 rowEarly (by decide)

/-- Witness for C3 at the sample table. -/
theorem split_timeframes_count_witness :
    (split_timeframes sampleDF).early.rows.length
      + (split_timeframes sampleDF).mid.rows.length
      + (split_timeframes sampleDF).recent.rows.length
      ≤ (split_timeframes sampleDF).master.rows.length :=
  (split_timeframes_count sampleDF (by decide)).1

/-- Witness for C4 at the boundary rows of the sample table. -/
theorem split_timeframes_boundary_witness :
    rowBoundaryEarly ∈ (split_timeframes sampleDF).early.rows
    ∧ rowBoundaryEarly ∉ (split_timeframes sampleDF).mid.rows :=
  (split_timeframes_boundary sampleDF (by decide) rowBoundaryEarly (by decide)).1 (by decide)

/-- Witness for C5 at the sample table without a date column. -/
theorem split_timeframes_no_date_witness :
    (split_timeframes sampleNoDate).early = sampleNoDate :=
  (split_timeframes_no_date sampleNoDate (by decide)).2.1

/-- Witness for C6 at the sample raw table carrying an OpenInt column. -/
theorem load_data_drops_openInt_witness :
    openIntCol ∉ (dropOpenInt (parseDateColumn failParse sampleRaw)).cols :=
  (load_data_drops_openInt failParse sampleRaw
    (dropOpenInt (parseDateColumn failParse sampleRaw)) rfl).1.1

/-- Witness for C7 at the sample malformed date value. -/
theorem load_data_coerce_dates_witness :
    coerceCell failParse (Cell.str badDateStr) = Cell.na :=
  (load_data_coerce_dates failParse sampleRaw (by decide)).2.2.2 badDateStr rfl

/-- Witness for C8 at the sample raw table. -/
theorem load_data_missing_file_witness :
    load_data false failParse sampleRaw = Except.error fileNotFoundMsg :=
  (load_data_missing_file failParse sampleRaw).1

/-- Witness for C10 at the missing-date row of the sample table. -/
theorem split_timeframes_na_excluded_witness :
    rowNa ∉ (split_timeframes sampleDF).early.rows :=
  (split_timeframes_na_excluded sampleDF (by decide) rowNa (by decide) (by decide)).2.1

end GEAnalysis
